import Mathlib

/-!
Verification of the ha-todo backend against its specification.

The schema layer is embedded from
`src/backend/migrations/2025063001_create_table_to_do.sql`:
the `todos` table (columns `id UUID PRIMARY KEY DEFAULT gen_random_uuid()`,
`title VARCHAR(255) NOT NULL`, `completed BOOLEAN NOT NULL DEFAULT FALSE`,
`created_at` / `updated_at` `TIMESTAMP WITH TIME ZONE DEFAULT NOW()`), and
the trigger `update_todos_updated_at` (BEFORE UPDATE, FOR EACH ROW,
executing `update_updated_at_column`, which sets `NEW.updated_at = NOW()`).

Timestamps are modelled as natural numbers; since neither timestamp column
carries NOT NULL, a stored timestamp is an `Option Nat` (with `none` for SQL
NULL).  UUIDs are modelled as naturals drawn from a fresh counter; the JSON
rendering of an id is its decimal string.
-/

namespace HaTodo

/-- A row of the `todos` table.  `id` is the UUID primary key (modelled as a
natural), `title` and `completed` are NOT NULL, while the two timestamp
columns are nullable, hence `Option Nat`. -/
structure Todo where
  id : Nat
  title : String
  completed : Bool
  created_at : Option Nat
  updated_at : Option Nat
deriving Repr, DecidableEq

/-- The values an INSERT statement supplies for the defaultable columns of
`todos`.  An outer `none` means the column is omitted from the statement, so
its column default applies (`gen_random_uuid()` for `id`, `FALSE` for
`completed`, `NOW()` for the timestamps).  For the nullable timestamp
columns, `some none` is an explicitly supplied SQL NULL. -/
structure InsertValues where
  id : Option Nat := none
  completed : Option Bool := none
  created_at : Option (Option Nat) := none
  updated_at : Option (Option Nat) := none

/-- The assignment cast of a string to the `VARCHAR(255)` `title` column.
Postgres raises error 22001 (value too long for type character varying(255),
modelled as `none`) when the string exceeds 255 characters, except that when
every excess character is a space the string is silently truncated to 255
characters and stored. -/
def storeTitle (s : String) : Option String :=
  if s.length ≤ 255 then some s
  else if (s.toList.drop 255).all (fun ch => ch == ' ') then
    some (String.mk (s.toList.take 255))
  else none

/-- A title within the `VARCHAR(255)` bound of the `title` column. -/
def titleFits (s : String) : Bool := decide (s.length ≤ 255)

/-- A 300-character, non-whitespace title: valid for the DAL's emptiness
check, but exceeding the `VARCHAR(255)` bound with non-space excess. -/
def longTitle : String := String.mk (List.replicate 300 'a')

/-- The row written by a successful `INSERT INTO todos` at time `now`, with
`genId` the UUID the store would generate and `title` the value accepted by
the `VARCHAR(255)` assignment cast (see `sqlInsertStmt` for the cast's
error path): each omitted column receives its default from the table
definition; each supplied value (including an explicit NULL) is stored
unchanged.  No trigger fires on INSERT (`update_todos_updated_at` is
declared BEFORE UPDATE only). -/
def sqlInsert (now : Nat) (genId : Nat) (title : String) (v : InsertValues) : Todo :=
  { id := v.id.getD genId
    title := title
    completed := v.completed.getD false
    created_at := v.created_at.getD (some now)
    updated_at := v.updated_at.getD (some now) }

/-- Semantics of one `INSERT INTO todos` statement: the supplied title first
goes through the `VARCHAR(255)` assignment cast — which raises 22001
(`none`) on an over-length value — and only then is the row written. -/
def sqlInsertStmt (now : Nat) (genId : Nat) (title : String) (v : InsertValues) :
    Option Todo :=
  (storeTitle title).map (fun t => sqlInsert now genId t v)

/-- The SET clause of an UPDATE statement against `todos`: each field is
`none` when the statement does not assign that column. -/
structure UpdateSet where
  title : Option String := none
  completed : Option Bool := none
  created_at : Option (Option Nat) := none
  updated_at : Option (Option Nat) := none

/-- Apply the SET clause of an UPDATE to a row, before any trigger runs; the
assigned title here is the value already accepted by the `VARCHAR(255)`
assignment cast (see `sqlUpdateRowStmt` for the cast's error path). -/
def applySet (row : Todo) (s : UpdateSet) : Todo :=
  { row with
    title := s.title.getD row.title
    completed := s.completed.getD row.completed
    created_at := s.created_at.getD row.created_at
    updated_at := s.updated_at.getD row.updated_at }

/-- The trigger function `update_updated_at_column` from the migration:
`NEW.updated_at = NOW(); RETURN NEW;`. -/
def update_updated_at_column (now : Nat) (new : Todo) : Todo :=
  { new with updated_at := some now }

/-- The row written by a successful UPDATE statement against a row of
`todos`: the SET clause is applied, then the BEFORE UPDATE trigger
`update_todos_updated_at` runs `update_updated_at_column` on the new row. -/
def sqlUpdateRow (now : Nat) (row : Todo) (s : UpdateSet) : Todo :=
  update_updated_at_column now (applySet row s)

/-- Semantics of one UPDATE statement against a row of `todos`: when the SET
clause assigns `title`, the value first goes through the `VARCHAR(255)`
assignment cast — which raises 22001 (`none`) on an over-length value, with
no row written — and only then does the row transition of `sqlUpdateRow`
(SET, then trigger) happen. -/
def sqlUpdateRowStmt (now : Nat) (row : Todo) (s : UpdateSet) : Option Todo :=
  match s.title with
  | none => some (sqlUpdateRow now row s)
  | some t =>
    (storeTitle t).map (fun t2 => sqlUpdateRow now row { s with title := some t2 })

/-- JSON rendering of a row id (the `id: string` field of the Todo JSON
shape). -/
def idString (t : Todo) : String := Nat.repr t.id

/-! ### Helper lemmas about `Nat.repr` -/

theorem toDigitsCore_length_le (base : Nat) :
    ∀ (fuel n : Nat) (ds : List Char),
      ds.length ≤ (Nat.toDigitsCore base fuel n ds).length := by
  intro fuel
  induction fuel with
  | zero => intro n ds; simp [Nat.toDigitsCore]
  | succ k ih =>
    intro n ds
    simp only [Nat.toDigitsCore]
    by_cases h : n / base = 0
    · simp [h]
    · simp only [h, if_false]
      calc ds.length ≤ (Nat.digitChar (n % base) :: ds).length := by simp
        _ ≤ _ := ih _ _

theorem toDigitsCore_length_lt (base fuel n : Nat) (ds : List Char)
    (h : 0 < fuel) : ds.length < (Nat.toDigitsCore base fuel n ds).length := by
  cases fuel with
  | zero => exact absurd h (by simp)
  | succ k =>
    simp only [Nat.toDigitsCore]
    by_cases h0 : n / base = 0
    · simp [h0]
    · simp only [h0, if_false]
      calc ds.length < (Nat.digitChar (n % base) :: ds).length := by simp
        _ ≤ _ := toDigitsCore_length_le base k _ _

theorem repr_length_pos (n : Nat) : 0 < (Nat.repr n).length := by
  show 0 < ((Nat.toDigits 10 n).asString).length
  have h := toDigitsCore_length_lt 10 (n + 1) n [] (Nat.succ_pos n)
  simpa [Nat.toDigits, String.length, List.asString] using h

theorem repr_ne_empty (n : Nat) : Nat.repr n ≠ "" := by
  intro h
  have := repr_length_pos n
  rw [h] at this
  simp [String.length] at this

/-! ### Data Access Layer

The backend binary itself (the Rust DAL and request handlers) is not among
the given sources; only its schema migration, container build and frontend
consumer are.  The definitions below are therefore modelled from the
specification (sections 4.2, 4.3, 6 and 7), executing against the SQL-level
row semantics embedded above. -/

/-- Modelled from the spec: the DAL error taxonomy of section 7 as raised by
the DAL operations themselves: `validation` for `ValidationError`,
`notFound` for `NotFoundError`, and `store` for `StoreError` — the query
failure surfaced when the store raises an error while executing the
statement, such as the `VARCHAR(255)` overflow (connectivity loss, also a
`StoreError`, lies outside a functional model). -/
inductive DalError where
  | validation
  | notFound
  | store
deriving Repr, DecidableEq

/-- The store state: the rows of the `todos` table, plus the generator
state from which the store draws the next fresh UUID. -/
structure Db where
  rows : List Todo
  nextId : Nat
deriving Repr, DecidableEq

/-- Modelled from the spec: a title is valid when it is non-empty after
trimming whitespace, i.e. not every character (vacuously for the empty
string) is whitespace. -/
def validTitle (title : String) : Bool :=
  !title.toList.all (fun ch => ch.isWhitespace)

/-- Modelled from the spec: `Insert(title, completed)` rejects an
empty/whitespace title before touching the store; on success it inserts a
row with store-generated id, `completed` defaulting to false when not
supplied, both timestamps left to their column defaults, and returns the
fully populated row. -/
def dalInsert (now : Nat) (db : Db) (title : String) (completed : Option Bool) :
    Except DalError (Todo × Db) :=
  if validTitle title then
    match sqlInsertStmt now db.nextId title { completed := completed } with
    | some row => .ok (row, { rows := db.rows ++ [row], nextId := db.nextId + 1 })
    | none => .error .store
  else
    .error .validation

/-- The server-side list order of section 4.2: creation time ascending
(SQL NULLs last, as for an ascending ORDER BY), rows with equal
`created_at` ordered by id. -/
def todoLe (a b : Todo) : Bool :=
  match a.created_at, b.created_at with
  | some x, some y => x < y || (x == y && a.id ≤ b.id)
  | some _, none => true
  | none, some _ => false
  | none, none => decide (a.id ≤ b.id)

/-- `todoLe` as a relation, for the sorting lemmas. -/
def todoRel (a b : Todo) : Prop := todoLe a b = true

instance : DecidableRel todoRel := fun a b => by
  unfold todoRel; infer_instance

/-- Modelled from the spec: `List()` returns all rows in the stable
deterministic server-side order of section 4.2. -/
def dalList (db : Db) : List Todo :=
  List.insertionSort todoRel db.rows

/-- Modelled from the spec: `Get(id)` returns the row with that id, or
`NotFoundError` when no row matches. -/
def dalGet (db : Db) (id : Nat) : Except DalError Todo :=
  match db.rows.find? (fun r => r.id == id) with
  | some r => .ok r
  | none => .error .notFound

/-- Modelled from the spec: `Update(id, title, completed)` re-validates
title non-emptiness, then writes both fields in one statement; the
timestamp update is implicit via the schema trigger, never set by this
layer.  Returns `NotFoundError` when no row matches the id — in that case
the SET clause is evaluated against zero rows, so its `VARCHAR(255)` cast
never fires; when a row does match, an over-length title raises the
overflow, surfaced as `StoreError`. -/
def dalUpdate (now : Nat) (db : Db) (id : Nat) (title : String) (completed : Bool) :
    Except DalError (Todo × Db) :=
  if validTitle title then
    match db.rows.find? (fun r => r.id == id) with
    | some r =>
      match sqlUpdateRowStmt now r { title := some title, completed := some completed } with
      | some r2 =>
        .ok (r2, { db with rows := db.rows.map (fun q => if q.id == id then r2 else q) })
      | none => .error .store
    | none => .error .notFound
  else
    .error .validation

/-- Modelled from the spec: `Delete(id)` removes the row with that id, or
returns `NotFoundError` when no row matches. -/
def dalDelete (db : Db) (id : Nat) : Except DalError Db :=
  if db.rows.any (fun r => r.id == id) then
    .ok { db with rows := db.rows.filter (fun r => !(r.id == id)) }
  else
    .error .notFound

/-! ### Request handlers: outcome-to-status mapping (section 4.3) -/

/-- Modelled from the spec: the handler status mapping, success to 200,
`ValidationError` to 400, `NotFoundError` to 404, `StoreError` to 500. -/
def statusOf {α : Type} : Except DalError α → Nat
  | .ok _ => 200
  | .error .validation => 400
  | .error .notFound => 404
  | .error .store => 500

/-- Modelled from the spec: the POST (create) route answers 201 on success,
otherwise maps the DAL error as usual. -/
def createStatus (now : Nat) (db : Db) (title : String) (completed : Option Bool) : Nat :=
  match dalInsert now db title completed with
  | .ok _ => 201
  | e => statusOf e

/-- Modelled from the spec: the GET-by-id outcome's status. -/
def getStatus (db : Db) (id : Nat) : Nat := statusOf (dalGet db id)

/-- Modelled from the spec: the PUT (update) route's status. -/
def updateStatus (now : Nat) (db : Db) (id : Nat) (title : String) (completed : Bool) : Nat :=
  statusOf (dalUpdate now db id title completed)

/-- Modelled from the spec: the DELETE route's status. -/
def deleteStatus (db : Db) (id : Nat) : Nat := statusOf (dalDelete db id)

/-! ### System lifecycle

A run of the service is a sequence of timestamped client operations applied
to an initially empty store; a failed operation leaves the store
unchanged. -/

/-- Modelled from the spec: the mutating client operations of section 4.3
(list/read operations never mutate state). -/
inductive Op where
  | create (title : String) (completed : Option Bool)
  | update (id : Nat) (title : String) (completed : Bool)
  | delete (id : Nat)

/-- Apply one operation at time `now`; a failing operation leaves the store
unchanged. -/
def applyOp (now : Nat) (db : Db) : Op → Db
  | .create t c =>
    match dalInsert now db t c with
    | .ok (_, db2) => db2
    | .error _ => db
  | .update i t c =>
    match dalUpdate now db i t c with
    | .ok (_, db2) => db2
    | .error _ => db
  | .delete i =>
    match dalDelete db i with
    | .ok db2 => db2
    | .error _ => db

/-- Run a timestamped trace of operations. -/
def runOps (db : Db) : List (Nat × Op) → Db
  | [] => db
  | (t, op) :: rest => runOps (applyOp t db op) rest

/-- The clock never runs backwards along a trace: each operation's time is
at least `lo` and at least the time of every earlier operation. -/
def timesOk (lo : Nat) : List (Nat × Op) → Bool
  | [] => true
  | (t, _) :: rest => lo ≤ t && timesOk t rest

/-- The store invariant carried along a run: every row has non-NULL
timestamps, `created_at ≤ updated_at`, and no stored timestamp exceeds the
current clock `t`. -/
def rowsOk (t : Nat) (db : Db) : Prop :=
  ∀ r ∈ db.rows, ∃ c u, r.created_at = some c ∧ r.updated_at = some u ∧ c ≤ u ∧ u ≤ t

/-! ### Order properties of the list order -/

instance : IsTotal Todo todoRel := by
  constructor
  intro a b
  simp only [todoRel, todoLe]
  rcases a with ⟨ai, _, _, ac, _⟩
  rcases b with ⟨bi, _, _, bc, _⟩
  cases ac <;> cases bc <;> simp <;> omega

instance : IsTrans Todo todoRel := by
  constructor
  intro a b c hab hbc
  simp only [todoRel, todoLe] at hab hbc ⊢
  rcases a with ⟨ai, _, _, ac, _⟩
  rcases b with ⟨bi, _, _, bc, _⟩
  rcases c with ⟨ci, _, _, cc, _⟩
  cases ac <;> cases bc <;> cases cc <;> simp_all <;> omega

/-! ### Invariant preservation along a run -/

theorem storeTitle_of_fits {s : String} (h : titleFits s = true) :
    storeTitle s = some s := by
  have h2 : s.length ≤ 255 := of_decide_eq_true h
  simp [storeTitle, h2]

theorem sqlInsertStmt_ok {now gen : Nat} {title : String} {c : Option Bool}
    {row : Todo}
    (h : sqlInsertStmt now gen title { completed := c } = some row) :
    row.id = gen ∧ row.completed = c.getD false ∧
    row.created_at = some now ∧ row.updated_at = some now := by
  unfold sqlInsertStmt at h
  cases hst : storeTitle title with
  | none => rw [hst] at h; cases h
  | some t =>
    rw [hst] at h
    simp only [Option.map_some'] at h
    cases h
    exact ⟨rfl, rfl, rfl, rfl⟩

theorem sqlUpdateRowStmt_ok {now : Nat} {r r2 : Todo} {title : String} {c : Bool}
    (h : sqlUpdateRowStmt now r { title := some title, completed := some c }
          = some r2) :
    r2.id = r.id ∧ r2.created_at = r.created_at ∧ r2.updated_at = some now := by
  have h2 : (storeTitle title).map
      (fun t2 => sqlUpdateRow now r
        { title := some t2, completed := some c,
          created_at := none, updated_at := none }) = some r2 := h
  cases hst : storeTitle title with
  | none => rw [hst] at h2; cases h2
  | some t =>
    rw [hst] at h2
    simp only [Option.map_some'] at h2
    cases h2
    exact ⟨rfl, rfl, rfl⟩

theorem rowsOk_mono {t t2 : Nat} {db : Db} (h : rowsOk t db) (ht : t ≤ t2) :
    rowsOk t2 db := by
  intro r hr
  obtain ⟨c, u, h1, h2, h3, h4⟩ := h r hr
  exact ⟨c, u, h1, h2, h3, le_trans h4 ht⟩

theorem rowsOk_applyOp {t : Nat} {db : Db} (now : Nat) (op : Op)
    (h : rowsOk t db) (ht : t ≤ now) : rowsOk now (applyOp now db op) := by
  have hdb : rowsOk now db := rowsOk_mono h ht
  cases op with
  | create title c =>
    simp only [applyOp, dalInsert]
    by_cases hv : validTitle title = true
    · simp only [hv, if_true]
      cases hst : sqlInsertStmt now db.nextId title { completed := c } with
      | none => exact hdb
      | some row =>
        simp only
        intro r hr
        simp only [List.mem_append, List.mem_singleton] at hr
        rcases hr with hr | hr
        · exact hdb r hr
        · subst hr
          obtain ⟨_, _, hc, hu⟩ := sqlInsertStmt_ok hst
          exact ⟨now, now, hc, hu, Nat.le_refl now, Nat.le_refl now⟩
    · simp only [hv, if_false]
      exact hdb
  | update i title c =>
    simp only [applyOp, dalUpdate]
    by_cases hv : validTitle title = true
    · simp only [hv, if_true]
      cases hfind : db.rows.find? (fun r => r.id == i) with
      | none => exact hdb
      | some r0 =>
        simp only
        cases hst : sqlUpdateRowStmt now r0
            { title := some title, completed := some c } with
        | none => exact hdb
        | some r2 =>
          simp only
          intro r hr
          simp only [List.mem_map] at hr
          obtain ⟨q, hq, hqr⟩ := hr
          by_cases hid : (q.id == i) = true
          · rw [if_pos hid] at hqr
            obtain ⟨c0, u0, hc0, hu0, hcu0, hub0⟩ :=
              hdb r0 (List.mem_of_find?_eq_some hfind)
            obtain ⟨_, hcr, hur⟩ := sqlUpdateRowStmt_ok hst
            refine ⟨c0, now, ?_, ?_, le_trans hcu0 hub0, Nat.le_refl now⟩
            · rw [← hqr, hcr]
              exact hc0
            · rw [← hqr]
              exact hur
          · rw [if_neg hid] at hqr
            exact hqr ▸ hdb q hq
    · simp only [hv, if_false]
      exact hdb
  | delete i =>
    simp only [applyOp, dalDelete]
    by_cases hany : db.rows.any (fun r => r.id == i) = true
    · simp only [hany, if_true]
      intro r hr
      exact hdb r (List.mem_of_mem_filter hr)
    · simp only [hany, if_false]
      exact hdb

theorem rowsOk_runOps :
    ∀ (tr : List (Nat × Op)) (t : Nat) (db : Db),
      rowsOk t db → timesOk t tr = true → ∃ t2, rowsOk t2 (runOps db tr) := by
  intro tr
  induction tr with
  | nil => exact fun t db h _ => ⟨t, h⟩
  | cons p rest ih =>
    intro t db h htr
    obtain ⟨t1, op⟩ := p
    simp only [timesOk, Bool.and_eq_true, decide_eq_true_eq] at htr
    exact ih t1 (applyOp t1 db op) (rowsOk_applyOp t1 op h htr.1) htr.2

/-! ### The claims -/

/-- C1: for every row and every UPDATE statement applied to it, whatever the
SET clause supplies — including an explicit `updated_at` value — the stored
`updated_at` is set to the current time by the BEFORE UPDATE trigger
`update_todos_updated_at`; no application-side assignment is needed for
this, and any supplied one is overridden. -/
theorem update_always_sets_updated_at (now : Nat) (row : Todo) (s : UpdateSet) :
    (sqlUpdateRow now row s).updated_at = some now := rfl

/-- C2: along every run of the service from the empty store under a
never-backwards clock, every row of the table has non-NULL timestamps with
`updated_at ≥ created_at`, after the insert and after every update. -/
theorem updated_at_ge_created_at (tr : List (Nat × Op))
    (h : timesOk 0 tr = true) :
    ∀ r ∈ (runOps ⟨[], 0⟩ tr).rows,
      ∃ c u, r.created_at = some c ∧ r.updated_at = some u ∧ c ≤ u := by
  have h0 : rowsOk 0 ⟨[], 0⟩ := by
    intro r hr
    simp [Db.rows] at hr
  obtain ⟨t2, h2⟩ := rowsOk_runOps tr 0 ⟨[], 0⟩ h0 h
  intro r hr
  obtain ⟨c, u, hc, hu, hcu, _⟩ := h2 r hr
  exact ⟨c, u, hc, hu, hcu⟩

/-- Witness for C2 at a concrete trace: a create followed by an update. -/
theorem updated_at_ge_created_at_witness :
    timesOk 0 [(1, Op.create "milk" none), (3, Op.update 0 "milk" true)] = true ∧
    ∀ r ∈ (runOps ⟨[], 0⟩
        [(1, Op.create "milk" none), (3, Op.update 0 "milk" true)]).rows,
      ∃ c u, r.created_at = some c ∧ r.updated_at = some u ∧ c ≤ u :=
  ⟨by decide, updated_at_ge_created_at _ (by decide)⟩

/-- C5: `List` returns every stored row (a permutation of the table) in the
deterministic server-side order: ascending by creation time, rows with
equal `created_at` ordered by id. -/
theorem list_ordered_and_complete (db : Db) :
    List.Perm (dalList db) db.rows ∧ List.Sorted todoRel (dalList db) :=
  ⟨List.perm_insertionSort todoRel db.rows,
   List.sorted_insertionSort todoRel db.rows⟩

/-- C9: the timestamp rule fires only on UPDATE.  On INSERT the column
defaults fill `created_at` and `updated_at` only when the statement omits
them, and any supplied value — including an explicit NULL, legal since
neither column is NOT NULL — is stored unchanged. -/
theorem insert_defaults_only_when_omitted (now gen : Nat) (title : String)
    (c : Option Bool) :
    ((sqlInsert now gen title { completed := c }).created_at = some now ∧
     (sqlInsert now gen title { completed := c }).updated_at = some now) ∧
    (∀ v w : Option Nat,
      (sqlInsert now gen title
        { completed := c, created_at := some v, updated_at := some w }).created_at = v ∧
      (sqlInsert now gen title
        { completed := c, created_at := some v, updated_at := some w }).updated_at = w) :=
  ⟨⟨rfl, rfl⟩, fun _ _ => ⟨rfl, rfl⟩⟩

/-- C10: an UPDATE that writes back the very same `title` and `completed`
the row already holds still goes through the trigger, so `updated_at` is
reset to the current time and — the clock having advanced past the stored
value — strictly advances. -/
theorem noop_update_advances_updated_at (now u : Nat) (row : Todo)
    (hu : row.updated_at = some u) (hlt : u < now) :
    (sqlUpdateRow now row
        { title := some row.title, completed := some row.completed }).title = row.title ∧
    (sqlUpdateRow now row
        { title := some row.title, completed := some row.completed }).completed = row.completed ∧
    (sqlUpdateRow now row
        { title := some row.title, completed := some row.completed }).created_at = row.created_at ∧
    (sqlUpdateRow now row
        { title := some row.title, completed := some row.completed }).updated_at = some now ∧
    ∃ u2, (sqlUpdateRow now row
        { title := some row.title, completed := some row.completed }).updated_at = some u2 ∧
      u < u2 :=
  ⟨rfl, rfl, rfl, rfl, now, rfl, hlt⟩

/-- Witness for C10 at a concrete row and time. -/
theorem noop_update_advances_updated_at_witness :
    (Todo.mk 7 "t" false (some 1) (some 1)).updated_at = some 1 ∧ 1 < 5 ∧
    ((sqlUpdateRow 5 (Todo.mk 7 "t" false (some 1) (some 1))
        { title := some (Todo.mk 7 "t" false (some 1) (some 1)).title,
          completed := some (Todo.mk 7 "t" false (some 1) (some 1)).completed }).title
        = (Todo.mk 7 "t" false (some 1) (some 1)).title ∧
     (sqlUpdateRow 5 (Todo.mk 7 "t" false (some 1) (some 1))
        { title := some (Todo.mk 7 "t" false (some 1) (some 1)).title,
          completed := some (Todo.mk 7 "t" false (some 1) (some 1)).completed }).completed
        = (Todo.mk 7 "t" false (some 1) (some 1)).completed ∧
     (sqlUpdateRow 5 (Todo.mk 7 "t" false (some 1) (some 1))
        { title := some (Todo.mk 7 "t" false (some 1) (some 1)).title,
          completed := some (Todo.mk 7 "t" false (some 1) (some 1)).completed }).created_at
        = (Todo.mk 7 "t" false (some 1) (some 1)).created_at ∧
     (sqlUpdateRow 5 (Todo.mk 7 "t" false (some 1) (some 1))
        { title := some (Todo.mk 7 "t" false (some 1) (some 1)).title,
          completed := some (Todo.mk 7 "t" false (some 1) (some 1)).completed }).updated_at
        = some 5 ∧
     ∃ u2, (sqlUpdateRow 5 (Todo.mk 7 "t" false (some 1) (some 1))
        { title := some (Todo.mk 7 "t" false (some 1) (some 1)).title,
          completed := some (Todo.mk 7 "t" false (some 1) (some 1)).completed }).updated_at
        = some u2 ∧ 1 < u2) :=
  ⟨rfl, by decide,
   noop_update_advances_updated_at 5 1 (Todo.mk 7 "t" false (some 1) (some 1))
     rfl (by decide)⟩

set_option maxRecDepth 4000 in
/-- C3 counterexample: a 300-character title is non-empty after trimming,
yet `Insert` does not succeed — the store raises the `VARCHAR(255)`
overflow, surfaced as `StoreError`, and the create route answers 500, not
201. -/
theorem insert_overlong_title_fails :
    validTitle longTitle = true ∧
    dalInsert 4 ⟨[], 0⟩ longTitle none = .error .store ∧
    createStatus 4 ⟨[], 0⟩ longTitle none = 500 ∧
    ∀ row db2, ¬ dalInsert 4 ⟨[], 0⟩ longTitle none = .ok (row, db2) :=
  ⟨by decide, rfl, rfl, fun _ _ h => Except.noConfusion h⟩

/-- C3 (amended): for every valid title (non-empty after trimming) that
also fits the column's `VARCHAR(255)` bound, `Insert` succeeds and returns
the fully populated row — non-empty store-generated id, `completed`
defaulting to false when not supplied, `created_at` equal to `updated_at` —
and the create route answers 201. -/
theorem insert_valid_bounded_title_populated (now : Nat) (db : Db)
    (title : String) (c : Option Bool)
    (h : validTitle title = true) (hfit : titleFits title = true) :
    ∃ row db2,
      dalInsert now db title c = .ok (row, db2) ∧
      idString row ≠ "" ∧
      row.title = title ∧
      row.completed = c.getD false ∧
      row.created_at = some now ∧
      row.updated_at = row.created_at ∧
      createStatus now db title c = 201 := by
  have hst : storeTitle title = some title := storeTitle_of_fits hfit
  refine ⟨sqlInsert now db.nextId title { completed := c },
    ⟨db.rows ++ [sqlInsert now db.nextId title { completed := c }], db.nextId + 1⟩,
    ?_, repr_ne_empty db.nextId, rfl, rfl, rfl, rfl, ?_⟩
  · simp [dalInsert, h, sqlInsertStmt, hst]
  · simp [createStatus, dalInsert, h, sqlInsertStmt, hst]

/-- Witness for C3 (amended): creating a todo titled Buy milk at time 4 in
the empty store. -/
theorem insert_valid_bounded_title_populated_witness :
    validTitle "Buy milk" = true ∧ titleFits "Buy milk" = true ∧
    ∃ row db2,
      dalInsert 4 ⟨[], 0⟩ "Buy milk" none = .ok (row, db2) ∧
      idString row ≠ "" ∧
      row.title = "Buy milk" ∧
      row.completed = (none : Option Bool).getD false ∧
      row.created_at = some 4 ∧
      row.updated_at = row.created_at ∧
      createStatus 4 ⟨[], 0⟩ "Buy milk" none = 201 :=
  ⟨by decide, by decide,
   insert_valid_bounded_title_populated 4 ⟨[], 0⟩ "Buy milk" none
     (by decide) (by decide)⟩

/-- C4: a create request whose title is empty or whitespace-only is
rejected with `ValidationError` (HTTP 400) before touching the store; the
store is unchanged and a subsequent `List` returns exactly the same rows,
in particular the same count. -/
theorem create_empty_title_rejected (now : Nat) (db : Db) (title : String)
    (c : Option Bool) (h : title.toList.all (fun ch => ch.isWhitespace) = true) :
    dalInsert now db title c = .error .validation ∧
    createStatus now db title c = 400 ∧
    applyOp now db (.create title c) = db ∧
    dalList (applyOp now db (.create title c)) = dalList db ∧
    (dalList (applyOp now db (.create title c))).length = (dalList db).length := by
  have hv : validTitle title = false := by
    unfold validTitle
    rw [h]
    rfl
  refine ⟨?_, ?_, ?_, ?_, ?_⟩
  · simp [dalInsert, hv]
  · simp [createStatus, dalInsert, hv, statusOf]
  · simp [applyOp, dalInsert, hv]
  · simp [applyOp, dalInsert, hv]
  · simp [applyOp, dalInsert, hv]

/-- Witness for C4: creating with a three-space title leaves the store
unchanged and answers 400. -/
theorem create_empty_title_rejected_witness :
    "   ".toList.all (fun ch => ch.isWhitespace) = true ∧
    (dalInsert 9 ⟨[], 0⟩ "   " none = .error .validation ∧
     createStatus 9 ⟨[], 0⟩ "   " none = 400 ∧
     applyOp 9 ⟨[], 0⟩ (.create "   " none) = ⟨[], 0⟩ ∧
     dalList (applyOp 9 ⟨[], 0⟩ (.create "   " none)) = dalList ⟨[], 0⟩ ∧
     (dalList (applyOp 9 ⟨[], 0⟩ (.create "   " none))).length =
       (dalList ⟨[], 0⟩).length) :=
  ⟨by decide, create_empty_title_rejected 9 ⟨[], 0⟩ "   " none (by decide)⟩

set_option maxRecDepth 4000 in
/-- C6 counterexample: updating an existing pending todo at a later time
with a 300-character (trim-valid) title does not succeed — the UPDATE's
`VARCHAR(255)` assignment raises the overflow, surfaced as `StoreError`,
instead of yielding an updated row. -/
theorem toggle_overlong_title_fails :
    (⟨[Todo.mk 0 "a" false (some 2) (some 2)], 1⟩ : Db).rows.find?
        (fun q => q.id == 0) = some (Todo.mk 0 "a" false (some 2) (some 2)) ∧
    (Todo.mk 0 "a" false (some 2) (some 2)).completed = false ∧
    (Todo.mk 0 "a" false (some 2) (some 2)).updated_at = some 2 ∧
    2 < 8 ∧ validTitle longTitle = true ∧
    dalUpdate 8 ⟨[Todo.mk 0 "a" false (some 2) (some 2)], 1⟩ 0 longTitle true
      = .error .store ∧
    ∀ r2 db2,
      ¬ dalUpdate 8 ⟨[Todo.mk 0 "a" false (some 2) (some 2)], 1⟩ 0 longTitle true
          = .ok (r2, db2) :=
  ⟨by decide, rfl, rfl, by decide, by decide, rfl,
   fun _ _ h => Except.noConfusion h⟩

/-- C6 (amended): updating an existing todo from `completed = false` to
`true` at a time later than its stored `updated_at`, with a title within
the `VARCHAR(255)` bound, succeeds and yields a row whose `updated_at` is
strictly greater than the previous one, with id and `created_at` (all
fields other than title, completed, updated_at) unchanged. -/
theorem toggle_completed_bounded_advances (now u : Nat) (db : Db) (i : Nat)
    (r : Todo) (title : String)
    (hfind : db.rows.find? (fun q => q.id == i) = some r)
    (hprev : r.completed = false)
    (hu : r.updated_at = some u) (hlt : u < now)
    (hv : validTitle title = true) (hfit : titleFits title = true) :
    ∃ r2 db2,
      dalUpdate now db i title true = .ok (r2, db2) ∧
      r2.id = r.id ∧
      r2.created_at = r.created_at ∧
      r2.completed = true ∧
      ∃ u2, r2.updated_at = some u2 ∧ u < u2 := by
  have hst : storeTitle title = some title := storeTitle_of_fits hfit
  refine ⟨sqlUpdateRow now r { title := some title, completed := some true },
    { db with rows := db.rows.map (fun q => if q.id == i
        then sqlUpdateRow now r { title := some title, completed := some true }
        else q) },
    ?_, rfl, rfl, rfl, now, rfl, hlt⟩
  simp [dalUpdate, hv, hfind, sqlUpdateRowStmt, hst]

/-- Witness for C6 (amended): completing the single pending todo of a
one-row store at time 8. -/
theorem toggle_completed_bounded_advances_witness :
    (⟨[Todo.mk 0 "a" false (some 2) (some 2)], 1⟩ : Db).rows.find?
        (fun q => q.id == 0) = some (Todo.mk 0 "a" false (some 2) (some 2)) ∧
    (Todo.mk 0 "a" false (some 2) (some 2)).completed = false ∧
    (Todo.mk 0 "a" false (some 2) (some 2)).updated_at = some 2 ∧
    2 < 8 ∧ validTitle "a" = true ∧ titleFits "a" = true ∧
    ∃ r2 db2,
      dalUpdate 8 ⟨[Todo.mk 0 "a" false (some 2) (some 2)], 1⟩ 0 "a" true
        = .ok (r2, db2) ∧
      r2.id = (Todo.mk 0 "a" false (some 2) (some 2)).id ∧
      r2.created_at = (Todo.mk 0 "a" false (some 2) (some 2)).created_at ∧
      r2.completed = true ∧
      ∃ u2, r2.updated_at = some u2 ∧ 2 < u2 :=
  ⟨by decide, rfl, rfl, by decide, by decide, by decide,
   toggle_completed_bounded_advances 8 2
     ⟨[Todo.mk 0 "a" false (some 2) (some 2)], 1⟩ 0
     (Todo.mk 0 "a" false (some 2) (some 2)) "a"
     (by decide) rfl rfl (by decide) (by decide) (by decide)⟩

/-- C7: after a successful `Delete(id)`, a subsequent `Get`, `Update`
(with a well-formed body) or `Delete` on the same id returns
`NotFoundError`, and each route answers 404. -/
theorem after_delete_not_found (db : Db) (i : Nat) (db2 : Db) (now : Nat)
    (title : String) (completed : Bool)
    (hdel : dalDelete db i = .ok db2) (hv : validTitle title = true) :
    dalGet db2 i = .error .notFound ∧
    dalUpdate now db2 i title completed = .error .notFound ∧
    dalDelete db2 i = .error .notFound ∧
    getStatus db2 i = 404 ∧
    updateStatus now db2 i title completed = 404 ∧
    deleteStatus db2 i = 404 := by
  have h2 : db2.rows = db.rows.filter (fun r => !(r.id == i)) := by
    unfold dalDelete at hdel
    split at hdel
    · cases hdel
      rfl
    · cases hdel
  have hnone : db2.rows.find? (fun r => r.id == i) = none := by
    rw [h2, List.find?_eq_none]
    intro x hx
    rw [List.mem_filter] at hx
    simpa using hx.2
  have hany : db2.rows.any (fun r => r.id == i) = false := by
    rw [h2]
    rw [List.any_eq_false]
    intro x hx
    rw [List.mem_filter] at hx
    simpa using hx.2
  refine ⟨?_, ?_, ?_, ?_, ?_, ?_⟩
  · simp [dalGet, hnone]
  · simp [dalUpdate, hv, hnone]
  · simp [dalDelete, hany]
  · simp [getStatus, statusOf, dalGet, hnone]
  · simp [updateStatus, statusOf, dalUpdate, hv, hnone]
  · simp [deleteStatus, statusOf, dalDelete, hany]

/-- Witness for C7: deleting the sole row of a one-row store, then probing
the same id. -/
theorem after_delete_not_found_witness :
    dalDelete ⟨[Todo.mk 3 "a" false (some 1) (some 1)], 4⟩ 3 = .ok ⟨[], 4⟩ ∧
    validTitle "b" = true ∧
    (dalGet ⟨[], 4⟩ 3 = .error .notFound ∧
     dalUpdate 9 ⟨[], 4⟩ 3 "b" true = .error .notFound ∧
     dalDelete ⟨[], 4⟩ 3 = .error .notFound ∧
     getStatus ⟨[], 4⟩ 3 = 404 ∧
     updateStatus 9 ⟨[], 4⟩ 3 "b" true = 404 ∧
     deleteStatus ⟨[], 4⟩ 3 = 404) :=
  ⟨rfl, by decide,
   after_delete_not_found ⟨[Todo.mk 3 "a" false (some 1) (some 1)], 4⟩ 3
     ⟨[], 4⟩ 9 "b" true rfl (by decide)⟩

/-- C8: a successful `Insert` returning todo `t` followed immediately by
`Get(t.id)` returns a todo equal to `t` in every field, provided the
store-generated id is fresh (which the store guarantees). -/
theorem insert_get_roundtrip (now : Nat) (db : Db) (title : String)
    (c : Option Bool) (t : Todo) (db2 : Db)
    (hfresh : ∀ r ∈ db.rows, r.id ≠ db.nextId)
    (hins : dalInsert now db title c = .ok (t, db2)) :
    dalGet db2 t.id = .ok t := by
  unfold dalInsert at hins
  split at hins
  · cases hst : sqlInsertStmt now db.nextId title { completed := c } with
    | none =>
      rw [hst] at hins
      cases hins
    | some row =>
      rw [hst] at hins
      injection hins with hins
      injection hins with ht hdb2
      subst ht
      subst hdb2
      obtain ⟨hid, -, -, -⟩ := sqlInsertStmt_ok hst
      unfold dalGet
      have hleft : db.rows.find? (fun r => r.id == row.id) = none := by
        rw [List.find?_eq_none]
        intro x hx
        rw [hid]
        simpa using hfresh x hx
      simp [hleft, List.find?_append]
  · cases hins

/-- Witness for C8: inserting into the empty store and reading the new row
back. -/
theorem insert_get_roundtrip_witness :
    (∀ r ∈ (⟨[], 0⟩ : Db).rows, r.id ≠ (⟨[], 0⟩ : Db).nextId) ∧
    dalInsert 2 ⟨[], 0⟩ "a" none
      = .ok (Todo.mk 0 "a" false (some 2) (some 2),
             ⟨[Todo.mk 0 "a" false (some 2) (some 2)], 1⟩) ∧
    dalGet ⟨[Todo.mk 0 "a" false (some 2) (some 2)], 1⟩
        (Todo.mk 0 "a" false (some 2) (some 2)).id
      = .ok (Todo.mk 0 "a" false (some 2) (some 2)) :=
  ⟨by simp [Db.rows], rfl,
   insert_get_roundtrip 2 ⟨[], 0⟩ "a" none
     (Todo.mk 0 "a" false (some 2) (some 2))
     ⟨[Todo.mk 0 "a" false (some 2) (some 2)], 1⟩
     (by simp [Db.rows]) rfl⟩

end HaTodo
